import Mathlib

/-!
# sndfilter command-line driver (`src/main.c`)

A shallow embedding of `main.c`: argument validation (`getargs`, `badargs`),
the three load/apply/save pipelines (`filter2`, `filter3`, `filter6`),
`compdefault`, and the dispatch chain of `main`.

The sound library (`wav.h`, `biquad.h`, `compressor.h`) and `atof` are external
to this file of the program.  They are taken as a parameter `Lib`: arbitrary
state-passing functions over an arbitrary library state `σ`.  Every call the
driver makes to them, and every write to the two output streams, is recorded
in order in a trace of `Event`s, so that "is called once", "is never called"
and "is released once" are statements about that trace.

Type parameters used throughout:
* `σ`  the state of the sound library (files, heap, ...);
* `H`  non-null sound handles (`sf_snd` is `Option H`, `NULL` is `none`);
* `Fl` the values of C `float`;
* `R`  the fields of `sf_compressor_params_st` other than the six that
       `compdefault` assigns.
-/

namespace Sndfilter

/-! ## Data model -/

/-- The six `float` locals of `main`; `getargs` receives pointers to them. -/
inductive Var
  | A | B | C | D | E | F
  deriving DecidableEq, Repr

/-- The record `sf_compressor_params_st` of `compressor.h`: the six fields that
`compdefault` assigns, and `rest` for whatever other fields the record has. -/
structure sf_compressor_params_st (Fl R : Type) where
  pregain : Fl
  threshold : Fl
  knee : Fl
  ratio : Fl
  attack : Fl
  release : Fl
  rest : R
  deriving DecidableEq, Repr

/-- A call of one of the nine filter functions of the sound library
(`biquad.h`, `compressor.h`) with its arguments. -/
inductive FilterCall (H Fl R : Type)
  | sf_lowpass (snd : H) (cutoff resonance : Fl)
  | sf_highpass (snd : H) (cutoff resonance : Fl)
  | sf_bandpass (snd : H) (freq Q : Fl)
  | sf_notch (snd : H) (freq Q : Fl)
  | sf_peaking (snd : H) (freq Q gain : Fl)
  | sf_allpass (snd : H) (freq Q : Fl)
  | sf_lowshelf (snd : H) (freq Q gain : Fl)
  | sf_highshelf (snd : H) (freq Q gain : Fl)
  | sf_compressor (snd : H) (params : sf_compressor_params_st Fl R)
  deriving DecidableEq, Repr

/-- The sound handle a filter call is applied to. -/
def FilterCall.snd {H Fl R : Type} : FilterCall H Fl R → H
  | .sf_lowpass s _ _ => s
  | .sf_highpass s _ _ => s
  | .sf_bandpass s _ _ => s
  | .sf_notch s _ _ => s
  | .sf_peaking s _ _ _ => s
  | .sf_allpass s _ _ => s
  | .sf_lowshelf s _ _ _ => s
  | .sf_highshelf s _ _ _ => s
  | .sf_compressor s _ => s

/-- One observable step of a run: a write to a stream, or a call of a library
function together with what it returned. -/
inductive Event (H Fl R : Type)
  | stdout (text : String)
  | stderr (text : String)
  | wavload (path : String) (ret : Option H)
  | filter (call : FilterCall H Fl R) (ret : Option H)
  | snd_free (snd : H)
  | wavsave (snd : H) (path : String) (ret : Bool)
  deriving DecidableEq, Repr

/-- The external functions the driver calls, as state-passing functions over the
library state `σ`, and the constant `sf_compressor_defaults`. -/
structure Lib (σ H Fl R : Type) where
  atof : String → Fl
  wavload : String → σ → Option H × σ
  filter : FilterCall H Fl R → σ → Option H × σ
  compressor_defaults : sf_compressor_params_st Fl R
  snd_free : H → σ → σ
  wavsave : H → String → σ → Bool × σ

/-- The state of a run: the library state and the events so far. -/
structure State (σ H Fl R : Type) where
  lib : σ
  trace : List (Event H Fl R)

/-- What makes a run undefined: reading `argv[i]` with `i` out of range, or
reading a `float` local that was never assigned. -/
inductive Fault
  | argv_index (i : Nat)
  | indeterminate (v : Var)
  deriving DecidableEq, Repr

/-- The `float` locals of `main`: `none` is an unassigned local. -/
abbrev Frame (Fl : Type) := Var → Option Fl

/-- Assignment `*p = x` through a pointer to a local. -/
def Frame.store {Fl : Type} (fr : Frame Fl) (p : Var) (x : Fl) : Frame Fl :=
  fun v => if v = p then some x else fr v

/-- Reading a local. -/
def Frame.load {Fl : Type} (fr : Frame Fl) (v : Var) : Except Fault Fl :=
  match fr v with
  | some x => .ok x
  | none => .error (.indeterminate v)

/-- Reading `argv[i]`. -/
def argvAt (argv : List String) (i : Nat) : Except Fault String :=
  match argv[i]? with
  | some s => .ok s
  | none => .error (.argv_index i)

section Driver

variable {σ H Fl R : Type}

/-! ## Streams and library calls -/

/-- Appending an event to the trace. -/
def State.emit (st : State σ H Fl R) (e : Event H Fl R) : State σ H Fl R :=
  { st with trace := st.trace ++ [e] }

/-- Write to standard output: `printf(text)`. -/
def printf (text : String) (st : State σ H Fl R) : State σ H Fl R :=
  st.emit (.stdout text)

/-- Write to the diagnostic stream: `fprintf(stderr, text)`. -/
def fprintf_stderr (text : String) (st : State σ H Fl R) : State σ H Fl R :=
  st.emit (.stderr text)

/-- Call of `sf_wavload(path)`. -/
def sf_wavload (L : Lib σ H Fl R) (path : String) (st : State σ H Fl R) :
    Option H × State σ H Fl R :=
  let r := L.wavload path st.lib
  (r.1, { lib := r.2, trace := st.trace ++ [.wavload path r.1] })

/-- Call of `sf_wavsave(snd, path)`. -/
def sf_wavsave (L : Lib σ H Fl R) (snd : H) (path : String) (st : State σ H Fl R) :
    Bool × State σ H Fl R :=
  let r := L.wavsave snd path st.lib
  (r.1, { lib := r.2, trace := st.trace ++ [.wavsave snd path r.1] })

/-- Call of `sf_snd_free(snd)`. -/
def sf_snd_free (L : Lib σ H Fl R) (snd : H) (st : State σ H Fl R) : State σ H Fl R :=
  { lib := L.snd_free snd st.lib, trace := st.trace ++ [.snd_free snd] }

/-- Call of a filter function of the library. -/
def sf_call (L : Lib σ H Fl R) (call : FilterCall H Fl R) (st : State σ H Fl R) :
    Option H × State σ H Fl R :=
  let r := L.filter call st.lib
  (r.1, { lib := r.2, trace := st.trace ++ [.filter call r.1] })

/-- Library function `sf_lowpass` of `biquad.h`. -/
def sf_lowpass (L : Lib σ H Fl R) (snd : H) (cutoff resonance : Fl) :=
  sf_call L (.sf_lowpass snd cutoff resonance)

/-- Library function `sf_highpass` of `biquad.h`. -/
def sf_highpass (L : Lib σ H Fl R) (snd : H) (cutoff resonance : Fl) :=
  sf_call L (.sf_highpass snd cutoff resonance)

/-- Library function `sf_bandpass` of `biquad.h`. -/
def sf_bandpass (L : Lib σ H Fl R) (snd : H) (freq Q : Fl) :=
  sf_call L (.sf_bandpass snd freq Q)

/-- Library function `sf_notch` of `biquad.h`. -/
def sf_notch (L : Lib σ H Fl R) (snd : H) (freq Q : Fl) :=
  sf_call L (.sf_notch snd freq Q)

/-- Library function `sf_peaking` of `biquad.h`. -/
def sf_peaking (L : Lib σ H Fl R) (snd : H) (freq Q gain : Fl) :=
  sf_call L (.sf_peaking snd freq Q gain)

/-- Library function `sf_allpass` of `biquad.h`. -/
def sf_allpass (L : Lib σ H Fl R) (snd : H) (freq Q : Fl) :=
  sf_call L (.sf_allpass snd freq Q)

/-- Library function `sf_lowshelf` of `biquad.h`. -/
def sf_lowshelf (L : Lib σ H Fl R) (snd : H) (freq Q gain : Fl) :=
  sf_call L (.sf_lowshelf snd freq Q gain)

/-- Library function `sf_highshelf` of `biquad.h`. -/
def sf_highshelf (L : Lib σ H Fl R) (snd : H) (freq Q gain : Fl) :=
  sf_call L (.sf_highshelf snd freq Q gain)

/-- Library function `sf_compressor` of `compressor.h`. -/
def sf_compressor (L : Lib σ H Fl R) (snd : H) (params : sf_compressor_params_st Fl R) :=
  sf_call L (.sf_compressor snd params)

/-! ## `main.c` -/

/-- The text `printabout` prints. -/
def aboutText : String :=
  "sndfilter - simple demonstrations of common sound filters\n" ++
  "(c) Copyright 2016, Sean Connelly (@voidqk), http://syntheti.cc\n" ++
  "MIT License\n" ++
  "Project Home: https://github.com/voidqk/sndfilter\n"

/-- The text `printhelp` prints after the banner. -/
def helpText : String :=
  "\n" ++
  "Usage:\n" ++
  "  sndfilter input.wav output.wav <filter> <...>\n" ++
  "\n" ++
  "Where:\n" ++
  "  input.wav    Input WAV file to process\n" ++
  "  output.wav   Output WAV file of filtered results\n" ++
  "  <filter>     One of the available filters (see below)\n" ++
  "  <...>        Additional parameters for the particular filter\n" ++
  "\n" ++
  "  Filters:\n" ++
  "    lowpass     Passes low frequencies through and dampens high frequencies\n" ++
  "    highpass    Passes high frequencies through and dampens low frequencies\n" ++
  "    bandpass    Passes a band of frequencies through and dampens outside them\n" ++
  "    notch       Dampens the overtones surrounding a frequency\n" ++
  "    allpass     Phase shifts based on frequency (usually not audible)\n" ++
  "    peaking     Adds gain to the overtones surrounding a frequency\n" ++
  "    lowshelf    Adds gain to lower frequencies\n" ++
  "    highshelf   Adds gain to higher frequencies\n" ++
  "    compressor  Dyanmic range compression, usually to make sounds louder\n" ++
  "\n" ++
  "  Filter Details:\n" ++
  "    lowpass <cutoff> <resonance>\n" ++
  "      cutoff     Frequency of the filter cutoff (Hz)\n" ++
  "      resonance  Boost applied to overtones near cutoff\n" ++
  "\n" ++
  "    highpass <cutoff> <resonance>\n" ++
  "      cutoff     Frequency of the filter cutoff (Hz)\n" ++
  "      resonance  Boost applied to overtones near cutoff\n" ++
  "\n" ++
  "    bandpass <freq> <Q>\n" ++
  "      freq       Center freqency of the overtones passed through (Hz)\n" ++
  "      Q          Inverse of the fractional bandwidth\n" ++
  "\n" ++
  "    notch <freq> <Q>\n" ++
  "      freq       Center frequency of the attenuated overtones (Hz)\n" ++
  "      Q          Inverse of the fractional bandwidth\n" ++
  "\n" ++
  "    peaking <freq> <Q> <gain>\n" ++
  "      freq       Center frequency where the gain occurs (Hz)\n" ++
  "      Q          Inverse of the fractional bandwidth\n" ++
  "      gain       Amount of gain (dB)\n" ++
  "\n" ++
  "    allpass <freq> <Q>\n" ++
  "      freq       Frequency where the phase shift crosses 90 degrees (Hz)\n" ++
  "      Q          Inverse of the fractional bandwidth\n" ++
  "\n" ++
  "    lowshelf <freq> <Q> <gain>\n" ++
  "      freq       Frequency where the low shelf stops producing gain (Hz)\n" ++
  "      Q          Inverse of the fractional bandwidth\n" ++
  "      gain       Amount of gain of the shelf (dB)\n" ++
  "\n" ++
  "    highshelf <freq> <Q> <gain>\n" ++
  "      freq       Frequency where the high shelf stops producing gain (Hz)\n" ++
  "      Q          Inverse of the fractional bandwidth\n" ++
  "      gain       Amount of gain of the shelf (dB)\n" ++
  "\n" ++
  "    compressor <pregain> <threshold> <knee> <ratio> <attack> <release>\n" ++
  "      pregain    Decibel amount to perform gain before compression (0 - 40)\n" ++
  "      threshold  Decibel level that triggers the compression (-100 to 0)\n" ++
  "      knee       Decibel width of the knee (0 - 40)\n" ++
  "      ratio      Ratio of compression after the threshold (1 - 20)\n" ++
  "      attack     Seconds for the compression to kick in (0 - 1)\n" ++
  "      release    Seconds for the compression to release (0 - 1)\n"

/-- Function `printabout` (main.c:13-20). -/
def printabout (st : State σ H Fl R) : Int × State σ H Fl R :=
  (0, printf aboutText st)

/-- Function `printhelp` (main.c:22-89). -/
def printhelp (st : State σ H Fl R) : Int × State σ H Fl R :=
  let st := (printabout st).2
  (0, printf helpText st)

/-- Function `getargs` (main.c:91-124).  `v1 .. v6` are the six pointer arguments, `none`
for `NULL`; the result is the returned flag and the locals after the writes. -/
def getargs (atof : String → Fl) (argc : Nat) (argv : List String)
    (v1 v2 v3 v4 v5 v6 : Option Var) (fr : Frame Fl) : Except Fault (Bool × Frame Fl) := do
  let mut fr := fr
  if let some p := v1 then
    if argc ≤ 4 then
      return (false, fr)
    fr := fr.store p (atof (← argvAt argv 4))
  if let some p := v2 then
    if argc ≤ 5 then
      return (false, fr)
    fr := fr.store p (atof (← argvAt argv 5))
  if let some p := v3 then
    if argc ≤ 6 then
      return (false, fr)
    fr := fr.store p (atof (← argvAt argv 6))
  if let some p := v4 then
    if argc ≤ 7 then
      return (false, fr)
    fr := fr.store p (atof (← argvAt argv 7))
  if let some p := v5 then
    if argc ≤ 8 then
      return (false, fr)
    fr := fr.store p (atof (← argvAt argv 8))
  if let some p := v6 then
    if argc ≤ 9 then
      return (false, fr)
    fr := fr.store p (atof (← argvAt argv 9))
  return (true, fr)

/-- Function `badargs` (main.c:126-129). -/
def badargs (filter : String) (st : State σ H Fl R) : Int × State σ H Fl R :=
  (1, fprintf_stderr ("Error: Bad arguments for " ++ filter ++ "\n") st)

/-- Function `filter2` (main.c:132-152). -/
def filter2 (L : Lib σ H Fl R) (input output : String)
    (func : H → Fl → Fl → State σ H Fl R → Option H × State σ H Fl R) (A B : Fl)
    (st : State σ H Fl R) : Int × State σ H Fl R :=
  match sf_wavload L input st with
  | (none, st) => (1, fprintf_stderr ("Error: Failed to load WAV: " ++ input ++ "\n") st)
  | (some s1, st) =>
    match func s1 A B st with
    | (s2, st) =>
      let st := sf_snd_free L s1 st
      match s2 with
      | none => (1, fprintf_stderr "Error: Failed to apply filter\n" st)
      | some s2 =>
        match sf_wavsave L s2 output st with
        | (res, st) =>
          let st := sf_snd_free L s2 st
          if !res then
            (1, fprintf_stderr ("Error: Failed to save WAV: " ++ output ++ "\n") st)
          else
            (0, st)

/-- Function `filter3` (main.c:155-175). -/
def filter3 (L : Lib σ H Fl R) (input output : String)
    (func : H → Fl → Fl → Fl → State σ H Fl R → Option H × State σ H Fl R) (A B C : Fl)
    (st : State σ H Fl R) : Int × State σ H Fl R :=
  match sf_wavload L input st with
  | (none, st) => (1, fprintf_stderr ("Error: Failed to load WAV: " ++ input ++ "\n") st)
  | (some s1, st) =>
    match func s1 A B C st with
    | (s2, st) =>
      let st := sf_snd_free L s1 st
      match s2 with
      | none => (1, fprintf_stderr "Error: Failed to apply filter\n" st)
      | some s2 =>
        match sf_wavsave L s2 output st with
        | (res, st) =>
          let st := sf_snd_free L s2 st
          if !res then
            (1, fprintf_stderr ("Error: Failed to save WAV: " ++ output ++ "\n") st)
          else
            (0, st)

/-- Function `filter6` (main.c:178-198). -/
def filter6 (L : Lib σ H Fl R) (input output : String)
    (func : H → Fl → Fl → Fl → Fl → Fl → Fl → State σ H Fl R → Option H × State σ H Fl R)
    (A B C D E F : Fl) (st : State σ H Fl R) : Int × State σ H Fl R :=
  match sf_wavload L input st with
  | (none, st) => (1, fprintf_stderr ("Error: Failed to load WAV: " ++ input ++ "\n") st)
  | (some s1, st) =>
    match func s1 A B C D E F st with
    | (s2, st) =>
      let st := sf_snd_free L s1 st
      match s2 with
      | none => (1, fprintf_stderr "Error: Failed to apply filter\n" st)
      | some s2 =>
        match sf_wavsave L s2 output st with
        | (res, st) =>
          let st := sf_snd_free L s2 st
          if !res then
            (1, fprintf_stderr ("Error: Failed to save WAV: " ++ output ++ "\n") st)
          else
            (0, st)

/-- Function `compdefault` (main.c:200-210). -/
def compdefault (L : Lib σ H Fl R) (snd : H) (pregain threshold knee ratio attack release : Fl)
    (st : State σ H Fl R) : Option H × State σ H Fl R :=
  let params := L.compressor_defaults
  let params := { params with pregain := pregain }
  let params := { params with threshold := threshold }
  let params := { params with knee := knee }
  let params := { params with ratio := ratio }
  let params := { params with attack := attack }
  let params := { params with release := release }
  sf_compressor L snd params st

/-- Function `main` (main.c:212-270).  The result is the exit code and the final state,
or the fault that makes the run undefined. -/
def main (L : Lib σ H Fl R) (argc : Nat) (argv : List String) (st : State σ H Fl R) :
    Except Fault (Int × State σ H Fl R) := do
  if argc < 4 then
    return printhelp st
  let input ← argvAt argv 1
  let output ← argvAt argv 2
  let filter ← argvAt argv 3
  let fr : Frame Fl := fun _ => none
  if filter = "lowpass" then
    let (ok, fr) ← getargs L.atof argc argv (some .A) (some .B) none none none none fr
    if !ok then
      return badargs filter st
    return filter2 L input output (sf_lowpass L) (← fr.load .A) (← fr.load .B) st
  else if filter = "highpass" then
    let (ok, fr) ← getargs L.atof argc argv (some .A) (some .B) none none none none fr
    if !ok then
      return badargs filter st
    return filter2 L input output (sf_highpass L) (← fr.load .A) (← fr.load .B) st
  else if filter = "bandpass" then
    let (ok, fr) ← getargs L.atof argc argv (some .A) (some .B) none none none none fr
    if !ok then
      return badargs filter st
    return filter2 L input output (sf_bandpass L) (← fr.load .A) (← fr.load .B) st
  else if filter = "notch" then
    let (ok, fr) ← getargs L.atof argc argv (some .A) (some .B) none none none none fr
    if !ok then
      return badargs filter st
    return filter2 L input output (sf_notch L) (← fr.load .A) (← fr.load .B) st
  else if filter = "peaking" then
    let (ok, fr) ← getargs L.atof argc argv (some .A) (some .B) (some .C) none none none fr
    if !ok then
      return badargs filter st
    return filter3 L input output (sf_peaking L) (← fr.load .A) (← fr.load .B) (← fr.load .C) st
  else if filter = "allpass" then
    let (ok, fr) ← getargs L.atof argc argv (some .A) (some .B) none none none none fr
    if !ok then
      return badargs filter st
    return filter2 L input output (sf_allpass L) (← fr.load .A) (← fr.load .B) st
  else if filter = "lowshelf" then
    let (ok, fr) ← getargs L.atof argc argv (some .A) (some .B) (some .C) none none none fr
    if !ok then
      return badargs filter st
    return filter3 L input output (sf_lowshelf L) (← fr.load .A) (← fr.load .B) (← fr.load .C) st
  else if filter = "highshelf" then
    let (ok, fr) ← getargs L.atof argc argv (some .A) (some .B) (some .C) none none none fr
    if !ok then
      return badargs filter st
    return filter3 L input output (sf_highshelf L) (← fr.load .A) (← fr.load .B) (← fr.load .C) st
  else if filter = "compressor" then
    let (ok, fr) ← getargs L.atof argc argv (some .A) (some .B) (some .C) (some .D) (some .E)
      (some .F) fr
    if !ok then
      return badargs filter st
    return filter6 L input output (compdefault L) (← fr.load .A) (← fr.load .B) (← fr.load .C)
      (← fr.load .D) (← fr.load .E) (← fr.load .F) st
  else
    let st := (printhelp st).2
    let st := fprintf_stderr ("Error: Bad filter \"" ++ filter ++ "\"\n") st
    return (1, st)

/-! ## Definitions used to state the properties -/

/-- The body that `filter2`, `filter3` and `filter6` have in common, with the
filter call and its parameters abstracted into `func`. -/
def pipeline (L : Lib σ H Fl R) (input output : String)
    (func : H → State σ H Fl R → Option H × State σ H Fl R)
    (st : State σ H Fl R) : Int × State σ H Fl R :=
  match sf_wavload L input st with
  | (none, st) => (1, fprintf_stderr ("Error: Failed to load WAV: " ++ input ++ "\n") st)
  | (some s1, st) =>
    match func s1 st with
    | (s2, st) =>
      let st := sf_snd_free L s1 st
      match s2 with
      | none => (1, fprintf_stderr "Error: Failed to apply filter\n" st)
      | some s2 =>
        match sf_wavsave L s2 output st with
        | (res, st) =>
          let st := sf_snd_free L s2 st
          if !res then
            (1, fprintf_stderr ("Error: Failed to save WAV: " ++ output ++ "\n") st)
          else
            (0, st)

/-- The filter table of the specification (section 6): the arity of each of
the nine filter names, `none` for any other name. -/
def specArity (name : String) : Option Nat :=
  if name = "lowpass" then some 2
  else if name = "highpass" then some 2
  else if name = "bandpass" then some 2
  else if name = "notch" then some 2
  else if name = "allpass" then some 2
  else if name = "peaking" then some 3
  else if name = "lowshelf" then some 3
  else if name = "highshelf" then some 3
  else if name = "compressor" then some 6
  else none

/-- The filter registry of the specification: the library call registered under
`name` for the handle `snd` and the parameter values `vals`, in the order of the
filter table; `none` when `name` is not registered or `vals` does not have
exactly the arity of `name`.  For the compressor the record is the defaults
with the six named fields replaced by the six values in order. -/
def specRegistry (defaults : sf_compressor_params_st Fl R) (name : String) (snd : H)
    (vals : List Fl) : Option (FilterCall H Fl R) :=
  match vals with
  | [a, b] =>
    if name = "lowpass" then some (.sf_lowpass snd a b)
    else if name = "highpass" then some (.sf_highpass snd a b)
    else if name = "bandpass" then some (.sf_bandpass snd a b)
    else if name = "notch" then some (.sf_notch snd a b)
    else if name = "allpass" then some (.sf_allpass snd a b)
    else none
  | [a, b, c] =>
    if name = "peaking" then some (.sf_peaking snd a b c)
    else if name = "lowshelf" then some (.sf_lowshelf snd a b c)
    else if name = "highshelf" then some (.sf_highshelf snd a b c)
    else none
  | [a, b, c, d, e, f] =>
    if name = "compressor" then
      some (.sf_compressor snd
        { pregain := a, threshold := b, knee := c, ratio := d, attack := e, release := f,
          rest := defaults.rest })
    else none
  | _ => none

/-- The texts written to the diagnostic stream in a run, in order. -/
def diagnostics : List (Event H Fl R) → List String
  | [] => []
  | .stderr t :: es => t :: diagnostics es
  | _ :: es => diagnostics es

/-- The texts written to standard output in a run, in order. -/
def printed : List (Event H Fl R) → List String
  | [] => []
  | .stdout t :: es => t :: printed es
  | _ :: es => printed es

/-- The calls of the load, filter, save and release functions in a run. -/
def libcalls : List (Event H Fl R) → List (Event H Fl R)
  | [] => []
  | .stdout _ :: es => libcalls es
  | .stderr _ :: es => libcalls es
  | e :: es => e :: libcalls es

/-- One block of `getargs`,
`if (v){ if (argc <= i) return false; *v = atof(argv[i]); }`, followed by the
rest `k` of the function. -/
def getargsBlock (atof : String → Fl) (argc : Nat) (argv : List String) (i : Nat)
    (v : Option Var) (fr : Frame Fl) (k : Frame Fl → Except Fault (Bool × Frame Fl)) :
    Except Fault (Bool × Frame Fl) :=
  match v with
  | none => k fr
  | some p =>
    if argc ≤ i then .ok (false, fr)
    else argvAt argv i >>= fun s => k (fr.store p (atof s))

/-- For each load, filter and save call of a run, in order, whether it
succeeded. -/
def stageResults : List (Event H Fl R) → List Bool
  | [] => []
  | .wavload _ r :: es => r.isSome :: stageResults es
  | .filter _ r :: es => r.isSome :: stageResults es
  | .wavsave _ _ r :: es => r :: stageResults es
  | _ :: es => stageResults es

/-- The four runs a pipeline can make, as exit code and events: load fails;
load succeeds and the filter fails; both succeed and save fails; all three
succeed. -/
def PipelineRun (input output : String) (code : Int) (evs : List (Event H Fl R)) : Prop :=
  (code = 1 ∧
    evs = [.wavload input none, .stderr ("Error: Failed to load WAV: " ++ input ++ "\n")]) ∨
  (code = 1 ∧ ∃ (h1 : H) (call : FilterCall H Fl R), call.snd = h1 ∧
    evs = [.wavload input (some h1), .filter call none, .snd_free h1,
      .stderr "Error: Failed to apply filter\n"]) ∨
  (code = 1 ∧ ∃ (h1 h2 : H) (call : FilterCall H Fl R), call.snd = h1 ∧
    evs = [.wavload input (some h1), .filter call (some h2), .snd_free h1,
      .wavsave h2 output false, .snd_free h2,
      .stderr ("Error: Failed to save WAV: " ++ output ++ "\n")]) ∨
  (code = 0 ∧ ∃ (h1 h2 : H) (call : FilterCall H Fl R), call.snd = h1 ∧
    evs = [.wavload input (some h1), .filter call (some h2), .snd_free h1,
      .wavsave h2 output true, .snd_free h2])

/-- A run `r` (exit code and final state) of a pipeline started in `st` stops at
the first failing stage: the events it adds are one of the four runs of
`PipelineRun`, the first of them being the load call with what the library
returned for it, the exit code is 0 exactly when load, filter and save all
succeeded, and there is one diagnostic exactly when the exit code is not 0. -/
def StopsAtFirstFailure (L : Lib σ H Fl R) (input output : String) (st : State σ H Fl R)
    (r : Int × State σ H Fl R) : Prop :=
  ∃ evs, r.2.trace = st.trace ++ evs ∧
    PipelineRun input output r.1 evs ∧
    evs.head? = some (.wavload input (L.wavload input st.lib).1) ∧
    (r.1 = 0 ↔ stageResults evs = [true, true, true]) ∧
    (diagnostics evs).length = (if r.1 = 0 then 0 else 1)

/-- A function pointer passed to a pipeline is a call into the library on the
handle it is given: it appends to the trace exactly one filter event, on that
handle, recording the value it returns. -/
def IsFilterCall (func : H → State σ H Fl R → Option H × State σ H Fl R) : Prop :=
  ∀ s st, ∃ call : FilterCall H Fl R, call.snd = s ∧
    (func s st).2.trace = st.trace ++ [.filter call (func s st).1]

/-- The run `r` (exit code and final state) that a pipeline started in `st` with
the filter call `func` must make, as a function of what load, the filter call
and save return.  Load fails: exit 1, the only events are the load call and one
diagnostic with the input path.  Load gives `h1` and the filter call fails:
after the filter call `h1` is released once, one diagnostic follows, exit 1,
and save is not called.  The filter call gives `h2` and save fails: `h1` is
released, save is called on `h2` and the output path, `h2` is released, one
diagnostic with the output path follows, exit 1.  Save succeeds: the same
calls, no diagnostic, exit 0.  And the exit code is 0 exactly when load, the
filter call and save all succeed. -/
def PipelineContract (L : Lib σ H Fl R) (input output : String)
    (func : H → State σ H Fl R → Option H × State σ H Fl R) (st : State σ H Fl R)
    (r : Int × State σ H Fl R) : Prop :=
  (∀ w1, L.wavload input st.lib = (none, w1) →
    r = (1, { lib := w1,
              trace := st.trace ++ [.wavload input none,
                .stderr ("Error: Failed to load WAV: " ++ input ++ "\n")] })) ∧
  (∀ h1 w1 st2, L.wavload input st.lib = (some h1, w1) →
    func h1 { lib := w1, trace := st.trace ++ [.wavload input (some h1)] } = (none, st2) →
    r = (1, { lib := L.snd_free h1 st2.lib,
              trace := st2.trace ++ [.snd_free h1,
                .stderr "Error: Failed to apply filter\n"] })) ∧
  (∀ h1 w1 h2 st2 w3, L.wavload input st.lib = (some h1, w1) →
    func h1 { lib := w1, trace := st.trace ++ [.wavload input (some h1)] } = (some h2, st2) →
    L.wavsave h2 output (L.snd_free h1 st2.lib) = (false, w3) →
    r = (1, { lib := L.snd_free h2 w3,
              trace := st2.trace ++ [.snd_free h1, .wavsave h2 output false, .snd_free h2,
                .stderr ("Error: Failed to save WAV: " ++ output ++ "\n")] })) ∧
  (∀ h1 w1 h2 st2 w3, L.wavload input st.lib = (some h1, w1) →
    func h1 { lib := w1, trace := st.trace ++ [.wavload input (some h1)] } = (some h2, st2) →
    L.wavsave h2 output (L.snd_free h1 st2.lib) = (true, w3) →
    r = (0, { lib := L.snd_free h2 w3,
              trace := st2.trace ++ [.snd_free h1, .wavsave h2 output true, .snd_free h2] })) ∧
  (r.1 = 0 ↔ ∃ h1 w1 h2 st2 w3, L.wavload input st.lib = (some h1, w1) ∧
    func h1 { lib := w1, trace := st.trace ++ [.wavload input (some h1)] } = (some h2, st2) ∧
    L.wavsave h2 output (L.snd_free h1 st2.lib) = (true, w3))

end Driver

/-- The text `s` contains the text `name`. -/
def Mentions (s name : String) : Prop :=
  ∃ pre post : String, s = pre ++ name ++ post

/-! ## Stub library for the concrete scenarios -/

/-- Stub of `atof` for the tokens of the scenarios; any other text gives 0. -/
def stubAtof (s : String) : ℚ :=
  if s = "1000" then 1000
  else if s = "0.5" then 0.5
  else if s = "1" then 1
  else if s = "6" then 6
  else if s = "-24" then -24
  else if s = "4" then 4
  else if s = "0.02" then 0.02
  else if s = "0.2" then 0.2
  else 0

/-- Counting stub of the sound library: the library state is the number of
handles handed out so far, a successful load or filter call returns that number
plus one as a fresh handle, and the three flags say which of load, filter and
save succeed.  The compressor record has one further field, a `Nat`. -/
def stubLib (loadOk applyOk saveOk : Bool) : Lib Nat Nat ℚ Nat where
  atof := stubAtof
  wavload := fun _ n => if loadOk then (some (n + 1), n + 1) else (none, n)
  filter := fun _ n => if applyOk then (some (n + 1), n + 1) else (none, n)
  compressor_defaults :=
    { pregain := 0, threshold := -24, knee := 30, ratio := 12, attack := 0.003,
      release := 0.25, rest := 7 }
  snd_free := fun _ n => n
  wavsave := fun _ _ n => (saveOk, n)

/-! ## Auxiliary lemmas -/

section Lemmas

variable {σ H Fl R : Type}

@[simp] theorem except_ok_bind {ε α β : Type} (a : α) (f : α → Except ε β) :
    (Except.ok a >>= f) = f a := rfl

theorem specArity_cases {name : String} {N : Nat} (h : specArity name = some N) :
    (name = "lowpass" ∧ N = 2) ∨ (name = "highpass" ∧ N = 2) ∨ (name = "bandpass" ∧ N = 2) ∨
    (name = "notch" ∧ N = 2) ∨ (name = "allpass" ∧ N = 2) ∨ (name = "peaking" ∧ N = 3) ∨
    (name = "lowshelf" ∧ N = 3) ∨ (name = "highshelf" ∧ N = 3) ∨
    (name = "compressor" ∧ N = 6) := by
  unfold specArity at h
  split_ifs at h <;> simp_all

theorem getargs_eq_blocks (atof : String → Fl) (argc : Nat) (argv : List String)
    (v1 v2 v3 v4 v5 v6 : Option Var) (fr : Frame Fl) :
    getargs atof argc argv v1 v2 v3 v4 v5 v6 fr =
      getargsBlock atof argc argv 4 v1 fr fun fr =>
      getargsBlock atof argc argv 5 v2 fr fun fr =>
      getargsBlock atof argc argv 6 v3 fr fun fr =>
      getargsBlock atof argc argv 7 v4 fr fun fr =>
      getargsBlock atof argc argv 8 v5 fr fun fr =>
      getargsBlock atof argc argv 9 v6 fr fun fr => .ok (true, fr) := by
  rcases v1 with _ | p1 <;> rcases v2 with _ | p2 <;> rcases v3 with _ | p3 <;>
  rcases v4 with _ | p4 <;> rcases v5 with _ | p5 <;> rcases v6 with _ | p6 <;> rfl

theorem getargsBlock_total (atof : String → Fl) (argv : List String) (i : Nat)
    (v : Option Var) (fr : Frame Fl) (k : Frame Fl → Except Fault (Bool × Frame Fl))
    (hk : ∀ fr, ∃ r, k fr = .ok r) :
    ∃ r, getargsBlock atof argv.length argv i v fr k = .ok r := by
  rcases v with _ | p
  · exact hk fr
  · by_cases h : argv.length ≤ i
    · exact ⟨(false, fr), by simp [getargsBlock, h]⟩
    · have hi : i < argv.length := by omega
      obtain ⟨r, hr⟩ := hk (fr.store p (atof argv[i]))
      exact ⟨r, by simp [getargsBlock, h, argvAt, List.getElem?_eq_getElem hi, hr]⟩

theorem getargs_total (atof : String → Fl) (argc : Nat) (argv : List String) (fr : Frame Fl) 
    (v1 v2 v3 v4 v5 v6 : Option Var)
    (h : argv.length = argc)  :
    ∃ r, getargs atof argc argv v1 v2 v3 v4 v5 v6 fr = .ok r := by
  subst h
  rw [getargs_eq_blocks]
  refine getargsBlock_total _ _ _ _ _ _ fun fr => ?_
  refine getargsBlock_total _ _ _ _ _ _ fun fr => ?_
  refine getargsBlock_total _ _ _ _ _ _ fun fr => ?_
  refine getargsBlock_total _ _ _ _ _ _ fun fr => ?_
  refine getargsBlock_total _ _ _ _ _ _ fun fr => ?_
  refine getargsBlock_total _ _ _ _ _ _ fun fr => ?_
  exact ⟨_, rfl⟩

theorem getargs2_enough (atof : String → Fl) (argc : Nat) (argv : List String) (a b : String)
    (fr : Frame Fl) (h4 : argv[4]? = some a) (h5 : argv[5]? = some b) (hc : 5 < argc) :
    getargs atof argc argv (some .A) (some .B) none none none none fr
      = .ok (true, (fr.store .A (atof a)).store .B (atof b)) := by
  have c4 : ¬ argc ≤ 4 := by omega
  have c5 : ¬ argc ≤ 5 := by omega
  simp [getargs_eq_blocks, getargsBlock, argvAt, h4, h5, c4, c5]

theorem getargs3_enough (atof : String → Fl) (argc : Nat) (argv : List String) (a b c : String)
    (fr : Frame Fl) (h4 : argv[4]? = some a) (h5 : argv[5]? = some b) (h6 : argv[6]? = some c)
    (hc : 6 < argc) :
    getargs atof argc argv (some .A) (some .B) (some .C) none none none fr
      = .ok (true, ((fr.store .A (atof a)).store .B (atof b)).store .C (atof c)) := by
  have c4 : ¬ argc ≤ 4 := by omega
  have c5 : ¬ argc ≤ 5 := by omega
  have c6 : ¬ argc ≤ 6 := by omega
  simp [getargs_eq_blocks, getargsBlock, argvAt, h4, h5, h6, c4, c5, c6]

theorem getargs6_enough (atof : String → Fl) (argc : Nat) (argv : List String)
    (a b c d e f : String) (fr : Frame Fl)
    (h4 : argv[4]? = some a) (h5 : argv[5]? = some b) (h6 : argv[6]? = some c)
    (h7 : argv[7]? = some d) (h8 : argv[8]? = some e) (h9 : argv[9]? = some f)
    (hc : 9 < argc) :
    getargs atof argc argv (some .A) (some .B) (some .C) (some .D) (some .E) (some .F) fr
      = .ok (true, (((((fr.store .A (atof a)).store .B (atof b)).store .C (atof c)).store .D
          (atof d)).store .E (atof e)).store .F (atof f)) := by
  have c4 : ¬ argc ≤ 4 := by omega
  have c5 : ¬ argc ≤ 5 := by omega
  have c6 : ¬ argc ≤ 6 := by omega
  have c7 : ¬ argc ≤ 7 := by omega
  have c8 : ¬ argc ≤ 8 := by omega
  have c9 : ¬ argc ≤ 9 := by omega
  simp [getargs_eq_blocks, getargsBlock, argvAt, h4, h5, h6, h7, h8, h9, c4, c5, c6, c7, c8, c9]

/-- A block whose pointer is set and whose index is not below `argc` returns false. -/
theorem getargsBlock_stop (atof : String → Fl) (argc : Nat) (argv : List String) (i : Nat)
    (p : Var) (fr : Frame Fl) (k : Frame Fl → Except Fault (Bool × Frame Fl))
    (h : argc ≤ i) :
    getargsBlock atof argc argv i (some p) fr k = .ok (false, fr) := by
  simp [getargsBlock, h]

/-- A block whose pointer is set and whose index is below `argc` continues. -/
theorem getargsBlock_go (atof : String → Fl) (argv : List String) (i : Nat)
    (p : Var) (fr : Frame Fl) (k : Frame Fl → Except Fault (Bool × Frame Fl))
    (h : i < argv.length) :
    getargsBlock atof argv.length argv i (some p) fr k = k (fr.store p (atof argv[i])) := by
  have h1 : ¬ argv.length ≤ i := by omega
  simp [getargsBlock, h1, argvAt, List.getElem?_eq_getElem h]

/-- With the first `n` pointers set in order (and `n` at least 1 here: the first
`m + 1` of them), too few tokens make `getargs` return false. -/
theorem getargs_few (atof : String → Fl) (argv : List String) (fr : Frame Fl)
    (p1 p2 : Var) (v3 v4 v5 v6 : Option Var) (h : argv.length < 6) :
    ∃ fr1, getargs atof argv.length argv (some p1) (some p2) v3 v4 v5 v6 fr
      = .ok (false, fr1) := by
  rw [getargs_eq_blocks]
  by_cases h4 : argv.length ≤ 4
  · exact ⟨_, getargsBlock_stop _ _ _ _ _ _ _ h4⟩
  · rw [getargsBlock_go _ _ _ _ _ _ (by omega)]
    exact ⟨_, getargsBlock_stop _ _ _ _ _ _ _ (by omega)⟩

theorem getargs_few3 (atof : String → Fl) (argv : List String) (fr : Frame Fl)
    (p1 p2 p3 : Var) (v4 v5 v6 : Option Var) (h : argv.length < 7) :
    ∃ fr1, getargs atof argv.length argv (some p1) (some p2) (some p3) v4 v5 v6 fr
      = .ok (false, fr1) := by
  by_cases h5 : argv.length < 6
  · exact getargs_few atof argv fr p1 p2 _ _ _ _ h5
  · rw [getargs_eq_blocks, getargsBlock_go _ _ _ _ _ _ (by omega),
      getargsBlock_go _ _ _ _ _ _ (by omega)]
    exact ⟨_, getargsBlock_stop _ _ _ _ _ _ _ (by omega)⟩

theorem getargs_few6 (atof : String → Fl) (argv : List String) (fr : Frame Fl)
    (p1 p2 p3 p4 p5 p6 : Var) (h : argv.length < 10) :
    ∃ fr1, getargs atof argv.length argv (some p1) (some p2) (some p3) (some p4) (some p5)
      (some p6) fr = .ok (false, fr1) := by
  by_cases h6 : argv.length < 7
  · exact getargs_few3 atof argv fr p1 p2 p3 _ _ _ h6
  · rw [getargs_eq_blocks, getargsBlock_go _ _ _ _ _ _ (by omega),
      getargsBlock_go _ _ _ _ _ _ (by omega), getargsBlock_go _ _ _ _ _ _ (by omega)]
    by_cases h7 : argv.length ≤ 7
    · exact ⟨_, getargsBlock_stop _ _ _ _ _ _ _ h7⟩
    · rw [getargsBlock_go _ _ _ _ _ _ (by omega)]
      by_cases h8 : argv.length ≤ 8
      · exact ⟨_, getargsBlock_stop _ _ _ _ _ _ _ h8⟩
      · rw [getargsBlock_go _ _ _ _ _ _ (by omega)]
        exact ⟨_, getargsBlock_stop _ _ _ _ _ _ _ (by omega)⟩

theorem main_few (L : Lib σ H Fl R) (argv : List String) (st : State σ H Fl R)
    (name : String) (N : Nat) (harity : specArity name = some N)
    (h3 : argv[3]? = some name) (hhi : argv.length < 4 + N) :
    main L argv.length argv st = .ok (badargs name st) := by
  have hlo : 3 < argv.length := by
    by_contra hc
    rw [List.getElem?_eq_none (by omega)] at h3
    exact absurd h3 (by simp)
  have h1 : argv[1]? = some argv[1] := List.getElem?_eq_getElem (by omega)
  have h2 : argv[2]? = some argv[2] := List.getElem?_eq_getElem (by omega)
  have hc : ¬ argv.length < 4 := by omega
  rcases specArity_cases harity with h | h | h | h | h | h | h | h | h <;> obtain ⟨rfl, rfl⟩ := h
  · obtain ⟨fr1, hfr⟩ := getargs_few L.atof argv (fun _ => none) .A .B none none none none hhi
    simp [main, argvAt, h1, h2, h3, hc, hfr]
  · obtain ⟨fr1, hfr⟩ := getargs_few L.atof argv (fun _ => none) .A .B none none none none hhi
    simp [main, argvAt, h1, h2, h3, hc, hfr]
  · obtain ⟨fr1, hfr⟩ := getargs_few L.atof argv (fun _ => none) .A .B none none none none hhi
    simp [main, argvAt, h1, h2, h3, hc, hfr]
  · obtain ⟨fr1, hfr⟩ := getargs_few L.atof argv (fun _ => none) .A .B none none none none hhi
    simp [main, argvAt, h1, h2, h3, hc, hfr]
  · obtain ⟨fr1, hfr⟩ := getargs_few L.atof argv (fun _ => none) .A .B none none none none hhi
    simp [main, argvAt, h1, h2, h3, hc, hfr]
  · obtain ⟨fr1, hfr⟩ := getargs_few3 L.atof argv (fun _ => none) .A .B .C none none none hhi
    simp [main, argvAt, h1, h2, h3, hc, hfr]
  · obtain ⟨fr1, hfr⟩ := getargs_few3 L.atof argv (fun _ => none) .A .B .C none none none hhi
    simp [main, argvAt, h1, h2, h3, hc, hfr]
  · obtain ⟨fr1, hfr⟩ := getargs_few3 L.atof argv (fun _ => none) .A .B .C none none none hhi
    simp [main, argvAt, h1, h2, h3, hc, hfr]
  · obtain ⟨fr1, hfr⟩ := getargs_few6 L.atof argv (fun _ => none) .A .B .C .D .E .F hhi
    simp [main, argvAt, h1, h2, h3, hc, hfr]

theorem filter2_eq_pipeline (L : Lib σ H Fl R) (input output : String)
    (func : H → Fl → Fl → State σ H Fl R → Option H × State σ H Fl R) (A B : Fl)
    (st : State σ H Fl R) :
    filter2 L input output func A B st = pipeline L input output (fun s => func s A B) st := rfl

theorem filter3_eq_pipeline (L : Lib σ H Fl R) (input output : String)
    (func : H → Fl → Fl → Fl → State σ H Fl R → Option H × State σ H Fl R) (A B C : Fl)
    (st : State σ H Fl R) :
    filter3 L input output func A B C st = pipeline L input output (fun s => func s A B C) st :=
  rfl

theorem filter6_eq_pipeline (L : Lib σ H Fl R) (input output : String)
    (func : H → Fl → Fl → Fl → Fl → Fl → Fl → State σ H Fl R → Option H × State σ H Fl R)
    (A B C D E F : Fl) (st : State σ H Fl R) :
    filter6 L input output func A B C D E F st
      = pipeline L input output (fun s => func s A B C D E F) st := rfl

theorem exists_cons2 {α : Type} (l : List α) (h : 2 ≤ l.length) :
    ∃ a b t, l = a :: b :: t := by
  match l, h with
  | a :: b :: t, _ => exact ⟨a, b, t, rfl⟩

theorem exists_cons3 {α : Type} (l : List α) (h : 3 ≤ l.length) :
    ∃ a b c t, l = a :: b :: c :: t := by
  match l, h with
  | a :: b :: c :: t, _ => exact ⟨a, b, c, t, rfl⟩

theorem exists_cons6 {α : Type} (l : List α) (h : 6 ≤ l.length) :
    ∃ a b c d e f t, l = a :: b :: c :: d :: e :: f :: t := by
  match l, h with
  | a :: b :: c :: d :: e :: f :: t, _ => exact ⟨a, b, c, d, e, f, t, rfl⟩

theorem getargs2_cons (atof : String → Fl) (argc : Nat) (a0 a1 a2 a3 a b : String)
    (extra : List String) (fr : Frame Fl) (hc : 5 < argc) :
    getargs atof argc (a0 :: a1 :: a2 :: a3 :: a :: b :: extra)
      (some .A) (some .B) none none none none fr
      = .ok (true, (fr.store .A (atof a)).store .B (atof b)) :=
  getargs2_enough atof argc _ a b fr (by simp) (by simp) hc

theorem getargs3_cons (atof : String → Fl) (argc : Nat) (a0 a1 a2 a3 a b c : String)
    (extra : List String) (fr : Frame Fl) (hc : 6 < argc) :
    getargs atof argc (a0 :: a1 :: a2 :: a3 :: a :: b :: c :: extra)
      (some .A) (some .B) (some .C) none none none fr
      = .ok (true, ((fr.store .A (atof a)).store .B (atof b)).store .C (atof c)) :=
  getargs3_enough atof argc _ a b c fr (by simp) (by simp) (by simp) hc

theorem getargs6_cons (atof : String → Fl) (argc : Nat) (a0 a1 a2 a3 a b c d e f : String)
    (extra : List String) (fr : Frame Fl) (hc : 9 < argc) :
    getargs atof argc (a0 :: a1 :: a2 :: a3 :: a :: b :: c :: d :: e :: f :: extra)
      (some .A) (some .B) (some .C) (some .D) (some .E) (some .F) fr
      = .ok (true, (((((fr.store .A (atof a)).store .B (atof b)).store .C (atof c)).store .D
          (atof d)).store .E (atof e)).store .F (atof f)) :=
  getargs6_enough atof argc _ a b c d e f fr (by simp) (by simp) (by simp) (by simp) (by simp)
    (by simp) hc

theorem main_enough (L : Lib σ H Fl R) (prog input output name : String)
    (params : List String) (st : State σ H Fl R) (N : Nat)
    (harity : specArity name = some N) (hN : N ≤ params.length) :
    ∃ mk : H → FilterCall H Fl R,
      (∀ h, specRegistry L.compressor_defaults name h ((params.take N).map L.atof)
        = some (mk h)) ∧
      (∀ h, (mk h).snd = h) ∧
      main L (params.length + 4) (prog :: input :: output :: name :: params) st
        = .ok (pipeline L input output (fun s => sf_call L (mk s)) st) := by
  rcases specArity_cases harity with h | h | h | h | h | h | h | h | h <;> obtain ⟨rfl, rfl⟩ := h
  · obtain ⟨a, b, extra, rfl⟩ := exists_cons2 params hN
    refine ⟨fun h => .sf_lowpass h (L.atof a) (L.atof b), fun h => by simp [specRegistry],
      fun h => rfl, ?_⟩
    have hc : ¬ ((a :: b :: extra).length + 4 < 4) := by omega
    have h5 : 5 < (a :: b :: extra).length + 4 := by simp
    generalize (a :: b :: extra).length + 4 = argc at hc h5 ⊢
    simp [main, argvAt, getargs2_cons _ _ _ _ _ _ _ _ _ _ h5, Frame.load, Frame.store,
      filter2_eq_pipeline, hc]
    rfl
  · obtain ⟨a, b, extra, rfl⟩ := exists_cons2 params hN
    refine ⟨fun h => .sf_highpass h (L.atof a) (L.atof b), fun h => by simp [specRegistry],
      fun h => rfl, ?_⟩
    have hc : ¬ ((a :: b :: extra).length + 4 < 4) := by omega
    have h5 : 5 < (a :: b :: extra).length + 4 := by simp
    generalize (a :: b :: extra).length + 4 = argc at hc h5 ⊢
    simp [main, argvAt, getargs2_cons _ _ _ _ _ _ _ _ _ _ h5, Frame.load, Frame.store,
      filter2_eq_pipeline, hc]
    rfl
  · obtain ⟨a, b, extra, rfl⟩ := exists_cons2 params hN
    refine ⟨fun h => .sf_bandpass h (L.atof a) (L.atof b), fun h => by simp [specRegistry],
      fun h => rfl, ?_⟩
    have hc : ¬ ((a :: b :: extra).length + 4 < 4) := by omega
    have h5 : 5 < (a :: b :: extra).length + 4 := by simp
    generalize (a :: b :: extra).length + 4 = argc at hc h5 ⊢
    simp [main, argvAt, getargs2_cons _ _ _ _ _ _ _ _ _ _ h5, Frame.load, Frame.store,
      filter2_eq_pipeline, hc]
    rfl
  · obtain ⟨a, b, extra, rfl⟩ := exists_cons2 params hN
    refine ⟨fun h => .sf_notch h (L.atof a) (L.atof b), fun h => by simp [specRegistry],
      fun h => rfl, ?_⟩
    have hc : ¬ ((a :: b :: extra).length + 4 < 4) := by omega
    have h5 : 5 < (a :: b :: extra).length + 4 := by simp
    generalize (a :: b :: extra).length + 4 = argc at hc h5 ⊢
    simp [main, argvAt, getargs2_cons _ _ _ _ _ _ _ _ _ _ h5, Frame.load, Frame.store,
      filter2_eq_pipeline, hc]
    rfl
  · obtain ⟨a, b, extra, rfl⟩ := exists_cons2 params hN
    refine ⟨fun h => .sf_allpass h (L.atof a) (L.atof b), fun h => by simp [specRegistry],
      fun h => rfl, ?_⟩
    have hc : ¬ ((a :: b :: extra).length + 4 < 4) := by omega
    have h5 : 5 < (a :: b :: extra).length + 4 := by simp
    generalize (a :: b :: extra).length + 4 = argc at hc h5 ⊢
    simp [main, argvAt, getargs2_cons _ _ _ _ _ _ _ _ _ _ h5, Frame.load, Frame.store,
      filter2_eq_pipeline, hc]
    rfl
  · obtain ⟨a, b, c, extra, rfl⟩ := exists_cons3 params hN
    refine ⟨fun h => .sf_peaking h (L.atof a) (L.atof b) (L.atof c),
      fun h => by simp [specRegistry], fun h => rfl, ?_⟩
    have hc : ¬ ((a :: b :: c :: extra).length + 4 < 4) := by omega
    have h6 : 6 < (a :: b :: c :: extra).length + 4 := by simp
    generalize (a :: b :: c :: extra).length + 4 = argc at hc h6 ⊢
    simp [main, argvAt, getargs3_cons _ _ _ _ _ _ _ _ _ _ _ h6, Frame.load, Frame.store,
      filter3_eq_pipeline, hc]
    rfl
  · obtain ⟨a, b, c, extra, rfl⟩ := exists_cons3 params hN
    refine ⟨fun h => .sf_lowshelf h (L.atof a) (L.atof b) (L.atof c),
      fun h => by simp [specRegistry], fun h => rfl, ?_⟩
    have hc : ¬ ((a :: b :: c :: extra).length + 4 < 4) := by omega
    have h6 : 6 < (a :: b :: c :: extra).length + 4 := by simp
    generalize (a :: b :: c :: extra).length + 4 = argc at hc h6 ⊢
    simp [main, argvAt, getargs3_cons _ _ _ _ _ _ _ _ _ _ _ h6, Frame.load, Frame.store,
      filter3_eq_pipeline, hc]
    rfl
  · obtain ⟨a, b, c, extra, rfl⟩ := exists_cons3 params hN
    refine ⟨fun h => .sf_highshelf h (L.atof a) (L.atof b) (L.atof c),
      fun h => by simp [specRegistry], fun h => rfl, ?_⟩
    have hc : ¬ ((a :: b :: c :: extra).length + 4 < 4) := by omega
    have h6 : 6 < (a :: b :: c :: extra).length + 4 := by simp
    generalize (a :: b :: c :: extra).length + 4 = argc at hc h6 ⊢
    simp [main, argvAt, getargs3_cons _ _ _ _ _ _ _ _ _ _ _ h6, Frame.load, Frame.store,
      filter3_eq_pipeline, hc]
    rfl
  · obtain ⟨a, b, c, d, e, f, extra, rfl⟩ := exists_cons6 params hN
    refine ⟨fun h => .sf_compressor h
      { pregain := L.atof a, threshold := L.atof b, knee := L.atof c, ratio := L.atof d,
        attack := L.atof e, release := L.atof f, rest := L.compressor_defaults.rest },
      fun h => by simp [specRegistry], fun h => rfl, ?_⟩
    have hc : ¬ ((a :: b :: c :: d :: e :: f :: extra).length + 4 < 4) := by omega
    have h9 : 9 < (a :: b :: c :: d :: e :: f :: extra).length + 4 := by simp
    generalize (a :: b :: c :: d :: e :: f :: extra).length + 4 = argc at hc h9 ⊢
    simp [main, argvAt, getargs6_cons _ _ _ _ _ _ _ _ _ _ _ _ _ _ h9, Frame.load, Frame.store,
      filter6_eq_pipeline, hc]
    rfl

theorem main_usage (L : Lib σ H Fl R) (argc : Nat) (argv : List String) (st : State σ H Fl R)
    (h : argc < 4) : main L argc argv st = .ok (printhelp st) := by
  simp [main, h]
  rfl

theorem printhelp_eq (st : State σ H Fl R) :
    printhelp st
      = (0, { lib := st.lib, trace := st.trace ++ [.stdout aboutText, .stdout helpText] }) := by
  simp [printhelp, printabout, printf, State.emit]

theorem badargs_eq (name : String) (st : State σ H Fl R) :
    badargs name st
      = (1, { lib := st.lib,
              trace := st.trace ++ [.stderr ("Error: Bad arguments for " ++ name ++ "\n")] }) := by
  simp [badargs, fprintf_stderr, State.emit]

theorem main_unknown (L : Lib σ H Fl R) (prog input output name : String)
    (params : List String) (st : State σ H Fl R)
    (h : name ∉ ["lowpass", "highpass", "bandpass", "notch", "peaking", "allpass", "lowshelf",
      "highshelf", "compressor"]) :
    main L (params.length + 4) (prog :: input :: output :: name :: params) st
      = .ok (1, { lib := st.lib,
                  trace := st.trace ++ [.stdout aboutText, .stdout helpText,
                    .stderr ("Error: Bad filter \"" ++ name ++ "\"\n")] }) := by
  simp only [List.mem_cons, List.mem_singleton, not_or, List.not_mem_nil, or_false] at h
  obtain ⟨h1, h2, h3, h4, h5, h6, h7, h8, h9⟩ := h
  simp [main, argvAt, h1, h2, h3, h4, h5, h6, h7, h8, h9, printhelp_eq, fprintf_stderr,
    State.emit]

theorem isFilterCall_sf_call (L : Lib σ H Fl R) (mk : H → FilterCall H Fl R)
    (hmk : ∀ s, (mk s).snd = s) : IsFilterCall (fun s => sf_call L (mk s)) :=
  fun s _ => ⟨mk s, hmk s, rfl⟩

theorem pipeline_shape (L : Lib σ H Fl R) (input output : String)
    (func : H → State σ H Fl R → Option H × State σ H Fl R) (hf : IsFilterCall func)
    (st : State σ H Fl R) :
    ∃ evs, (pipeline L input output func st).2.trace = st.trace ++ evs ∧
      PipelineRun input output (pipeline L input output func st).1 evs ∧
      evs.head? = some (.wavload input (L.wavload input st.lib).1) := by
  unfold pipeline
  rcases hl : L.wavload input st.lib with ⟨_ | h1, w1⟩
  · refine ⟨[.wavload input none, .stderr ("Error: Failed to load WAV: " ++ input ++ "\n")],
      ?_, Or.inl ?_, ?_⟩ <;> simp [sf_wavload, hl, fprintf_stderr, State.emit]
  · obtain ⟨call, hcall, htr⟩ := hf h1 (sf_wavload L input st).2
    simp only [sf_wavload, hl] at htr ⊢
    rcases hfun : func h1 { lib := w1, trace := st.trace ++ [.wavload input (some h1)] }
      with ⟨_ | h2, st2⟩
    · rw [hfun] at htr
      simp only at htr
      refine ⟨[.wavload input (some h1), .filter call none, .snd_free h1,
        .stderr "Error: Failed to apply filter\n"], ?_, Or.inr (Or.inl ⟨?_, h1, call, hcall, rfl⟩),
        ?_⟩ <;> simp [sf_snd_free, fprintf_stderr, State.emit, htr]
    · rw [hfun] at htr
      simp only at htr
      rcases hs : L.wavsave h2 output (L.snd_free h1 st2.lib) with ⟨_ | _, w3⟩
      · refine ⟨[.wavload input (some h1), .filter call (some h2), .snd_free h1,
          .wavsave h2 output false, .snd_free h2,
          .stderr ("Error: Failed to save WAV: " ++ output ++ "\n")], ?_,
          Or.inr (Or.inr (Or.inl ⟨?_, h1, h2, call, hcall, rfl⟩)), ?_⟩ <;>
          simp [sf_snd_free, sf_wavsave, hs, fprintf_stderr, State.emit, htr]
      · refine ⟨[.wavload input (some h1), .filter call (some h2), .snd_free h1,
          .wavsave h2 output true, .snd_free h2], ?_,
          Or.inr (Or.inr (Or.inr ⟨?_, h1, h2, call, hcall, rfl⟩)), ?_⟩ <;>
          simp [sf_snd_free, sf_wavsave, hs, htr]

theorem stageResults_of_run (input output : String) (code : Int)
    (evs : List (Event H Fl R)) (h : PipelineRun input output code evs) :
    (code = 0 ↔ stageResults evs = [true, true, true]) ∧ (code = 0 ∨ code = 1) ∧
    (diagnostics evs).length = (if code = 0 then 0 else 1) := by
  rcases h with ⟨rfl, rfl⟩ | ⟨rfl, h1, call, hc, rfl⟩ | ⟨rfl, h1, h2, call, hc, rfl⟩ |
    ⟨rfl, h1, h2, call, hc, rfl⟩ <;> simp [stageResults, diagnostics]

/-- The fault branch of the model is live: with `argc` larger than the number of
tokens of `argv`, `main` reads `argv` out of range. -/
theorem main_faults_when_argc_exceeds_argv :
    main (stubLib true true true) 6 ["prog", "in.wav"] ⟨0, []⟩ = .error (.argv_index 2) := by
  simp [main, argvAt]
  rfl

theorem isFilterCall_compdefault (L : Lib σ H Fl R) (a b c d e f : Fl) :
    IsFilterCall (fun s => compdefault L s a b c d e f) :=
  fun s _ =>
    ⟨.sf_compressor s
      { pregain := a, threshold := b, knee := c, ratio := d, attack := e, release := f,
        rest := L.compressor_defaults.rest }, rfl, rfl⟩

theorem pipeline_contract (L : Lib σ H Fl R) (input output : String)
    (func : H → State σ H Fl R → Option H × State σ H Fl R) (st : State σ H Fl R) :
    PipelineContract L input output func st (pipeline L input output func st) := by
  refine ⟨fun w1 hl => ?_, fun h1 w1 st2 hl hf => ?_, fun h1 w1 h2 st2 w3 hl hf hs => ?_,
    fun h1 w1 h2 st2 w3 hl hf hs => ?_, ?_⟩
  · simp [pipeline, sf_wavload, hl, fprintf_stderr, State.emit]
  · simp [pipeline, sf_wavload, hl, hf, sf_snd_free, fprintf_stderr, State.emit]
  · simp [pipeline, sf_wavload, hl, hf, hs, sf_snd_free, sf_wavsave, fprintf_stderr, State.emit]
  · simp [pipeline, sf_wavload, hl, hf, hs, sf_snd_free, sf_wavsave]
  · rcases hl : L.wavload input st.lib with ⟨_ | h1, w1⟩
    · simp [pipeline, sf_wavload, hl]
    · rcases hf : func h1 { lib := w1, trace := st.trace ++ [.wavload input (some h1)] }
        with ⟨_ | h2, st2⟩
      · simp [pipeline, sf_wavload, hl, hf]
      · rcases hs : L.wavsave h2 output (L.snd_free h1 st2.lib) with ⟨_ | _, w3⟩
        · simp [pipeline, sf_wavload, hl, hf, hs, sf_snd_free, sf_wavsave]
        · simp [pipeline, sf_wavload, hl, hf, hs, sf_snd_free, sf_wavsave]
          exact ⟨h1, w1, ⟨rfl, rfl⟩, h2, st2, hf, w3, hs⟩


theorem stopsAtFirstFailure_pipeline (L : Lib σ H Fl R) (input output : String)
    (func : H → State σ H Fl R → Option H × State σ H Fl R) (hf : IsFilterCall func)
    (st : State σ H Fl R) :
    StopsAtFirstFailure L input output st (pipeline L input output func st) := by
  obtain ⟨evs, htr, hrun, hhd⟩ := pipeline_shape L input output func hf st
  exact ⟨evs, htr, hrun, hhd, (stageResults_of_run _ _ _ _ hrun).1,
    (stageResults_of_run _ _ _ _ hrun).2.2⟩

end Lemmas

/-! ## The properties -/

section Claims
variable {σ H Fl R : Type}

/-- C1: with fewer than 4 tokens (`argc < 4`) `main` returns exit code 0; the
only events of the run are the two writes of the usage text (banner, then help)
to standard output, so nothing is written to the diagnostic stream and none of
load, filter, save and release is called; the library state is unchanged. -/
theorem main_usage_when_argc_lt_4 (L : Lib σ H Fl R) (argc : Nat) (argv : List String)
    (st : State σ H Fl R) (h : argc < 4) :
    main L argc argv st
        = .ok (0, { lib := st.lib,
                    trace := st.trace ++ [.stdout aboutText, .stdout helpText] }) ∧
      printed ([.stdout aboutText, .stdout helpText] : List (Event H Fl R))
        = [aboutText, helpText] ∧
      diagnostics ([.stdout aboutText, .stdout helpText] : List (Event H Fl R)) = [] ∧
      libcalls ([.stdout aboutText, .stdout helpText] : List (Event H Fl R)) = [] := by
  refine ⟨?_, rfl, rfl, rfl⟩
  rw [main_usage L argc argv st h, printhelp_eq]

/-- Witness of C1: `prog in.wav out.wav` (3 tokens) prints the usage text and
exits 0. -/
theorem main_usage_when_argc_lt_4_witness :
    (3 < 4) ∧
    main (stubLib true true true) 3 ["prog", "in.wav", "out.wav"] ⟨0, []⟩
        = .ok (0, ⟨0, [.stdout aboutText, .stdout helpText]⟩) :=
  ⟨by decide,
   (main_usage_when_argc_lt_4 (stubLib true true true) 3 ["prog", "in.wav", "out.wav"] ⟨0, []⟩
      (by decide)).1⟩

/-- C2: with at least 4 tokens and a filter name `argv[3]` that is not exactly
one of the nine names, `main` returns exit code 1; the events of the run are the
usage text on standard output followed by one diagnostic, which contains the
filter name; none of load, filter, save and release is called, whatever
parameter tokens follow. -/
theorem main_unknown_filter (L : Lib σ H Fl R) (prog input output name : String)
    (params : List String) (st : State σ H Fl R)
    (h : name ∉ ["lowpass", "highpass", "bandpass", "notch", "peaking", "allpass", "lowshelf",
      "highshelf", "compressor"]) :
    main L (params.length + 4) (prog :: input :: output :: name :: params) st
        = .ok (1, { lib := st.lib,
                    trace := st.trace ++ [.stdout aboutText, .stdout helpText,
                      .stderr ("Error: Bad filter \"" ++ name ++ "\"\n")] }) ∧
      Mentions ("Error: Bad filter \"" ++ name ++ "\"\n") name ∧
      diagnostics ([.stdout aboutText, .stdout helpText,
          .stderr ("Error: Bad filter \"" ++ name ++ "\"\n")] : List (Event H Fl R))
        = ["Error: Bad filter \"" ++ name ++ "\"\n"] ∧
      libcalls ([.stdout aboutText, .stdout helpText,
          .stderr ("Error: Bad filter \"" ++ name ++ "\"\n")] : List (Event H Fl R)) = [] :=
  ⟨main_unknown L prog input output name params st h,
   ⟨"Error: Bad filter \"", "\"\n", rfl⟩, rfl, rfl⟩

/-- Witness of C2: `prog in.wav out.wav Lowpass 1000 0.5` (wrong case) exits 1
with the diagnostic naming `Lowpass`. -/
theorem main_unknown_filter_witness :
    "Lowpass" ∉ ["lowpass", "highpass", "bandpass", "notch", "peaking", "allpass", "lowshelf",
      "highshelf", "compressor"] ∧
    main (stubLib true true true) 6 ["prog", "in.wav", "out.wav", "Lowpass", "1000", "0.5"]
        ⟨0, []⟩
      = .ok (1, ⟨0, [.stdout aboutText, .stdout helpText,
          .stderr ("Error: Bad filter \"" ++ "Lowpass" ++ "\"\n")]⟩) :=
  ⟨by decide,
   (main_unknown_filter (stubLib true true true) "prog" "in.wav" "out.wav" "Lowpass"
      ["1000", "0.5"] ⟨0, []⟩ (by decide)).1⟩

/-- C3: for each of the nine filter names, of arity `N` in the filter table, an
invocation with fewer than `N` tokens after the filter name returns exit code 1;
the only event of the run is one diagnostic, which contains the filter name, so
load, filter, save and release are never called. -/
theorem main_too_few_params (L : Lib σ H Fl R) (prog input output name : String)
    (params : List String) (st : State σ H Fl R) (N : Nat)
    (harity : specArity name = some N) (hlt : params.length < N) :
    main L (params.length + 4) (prog :: input :: output :: name :: params) st
        = .ok (1, { lib := st.lib,
                    trace := st.trace ++
                      [.stderr ("Error: Bad arguments for " ++ name ++ "\n")] }) ∧
      Mentions ("Error: Bad arguments for " ++ name ++ "\n") name ∧
      libcalls ([.stderr ("Error: Bad arguments for " ++ name ++ "\n")] : List (Event H Fl R))
        = [] := by
  refine ⟨?_, ⟨"Error: Bad arguments for ", "\n", rfl⟩, rfl⟩
  have h := main_few L (prog :: input :: output :: name :: params) st name N harity (by simp)
    (by simp only [List.length_cons]; omega)
  rw [badargs_eq] at h
  exact h

/-- Witness of C3: `prog a b peaking 1000 1` has 2 of the 3 parameters of
`peaking`; it exits 1 and the trace has no load call. -/
theorem main_too_few_params_witness :
    specArity "peaking" = some 3 ∧ ["1000", "1"].length < 3 ∧
    main (stubLib true true true) 6 ["prog", "a", "b", "peaking", "1000", "1"] ⟨0, []⟩
      = .ok (1, ⟨0, [.stderr ("Error: Bad arguments for " ++ "peaking" ++ "\n")]⟩) :=
  ⟨by decide, by decide,
   (main_too_few_params (stubLib true true true) "prog" "a" "b" "peaking" ["1000", "1"]
      ⟨0, []⟩ 3 (by decide) (by decide)).1⟩

/-- C4: for each of the nine filters, of arity `N`, an invocation with more than
`N` tokens after the filter name makes the same run (the same result of `main`:
exit code, library state, and trace of calls with their arguments and of
diagnostics) as the invocation cut after its first `N` parameter tokens, from
the same state and with the same library; and that run is a run of the
pipeline, starting with the load call, not the bad-arguments exit. -/
theorem main_ignores_extra_params (L : Lib σ H Fl R) (prog input output name : String)
    (params : List String) (st : State σ H Fl R) (N : Nat)
    (harity : specArity name = some N) (hgt : N < params.length) :
    main L (params.length + 4) (prog :: input :: output :: name :: params) st
        = main L (N + 4) (prog :: input :: output :: name :: params.take N) st ∧
      ∃ r evs, main L (params.length + 4) (prog :: input :: output :: name :: params) st = .ok r ∧
        r.2.trace = st.trace ++ evs ∧ PipelineRun input output r.1 evs := by
  obtain ⟨mk1, hr1, hs1, hm1⟩ :=
    main_enough L prog input output name params st N harity (le_of_lt hgt)
  obtain ⟨evs, htr, hrun, -⟩ :=
    pipeline_shape L input output _ (isFilterCall_sf_call L mk1 hs1) st
  refine ⟨?_, _, evs, hm1, htr, hrun⟩
  have hlen : (params.take N).length = N := by
    rw [List.length_take]; omega
  obtain ⟨mk2, hr2, -, hm2⟩ :=
    main_enough L prog input output name (params.take N) st N harity (by omega)
  rw [hlen] at hm2
  have hmk : mk1 = mk2 := by
    funext h
    have e1 := hr1 h
    have e2 := hr2 h
    rw [List.take_take, min_self, e1] at e2
    exact Option.some.inj e2
  rw [hm1, hm2, hmk]

/-- Witness of C4: `prog in.wav out.wav lowpass 1000 0.5 extra more` runs as
`prog in.wav out.wav lowpass 1000 0.5`. -/
theorem main_ignores_extra_params_witness :
    specArity "lowpass" = some 2 ∧ 2 < ["1000", "0.5", "extra", "more"].length ∧
    main (stubLib true true true) 8
        ["prog", "in.wav", "out.wav", "lowpass", "1000", "0.5", "extra", "more"] ⟨0, []⟩
      = main (stubLib true true true) 6
        ["prog", "in.wav", "out.wav", "lowpass", "1000", "0.5"] ⟨0, []⟩ :=
  ⟨by decide, by decide,
   (main_ignores_extra_params (stubLib true true true) "prog" "in.wav" "out.wav" "lowpass"
      ["1000", "0.5", "extra", "more"] ⟨0, []⟩ 2 (by decide) (by decide)).1⟩

/-- C6: every run of `filter2`, `filter3` and `filter6` stops at the first
failing stage, as a function of what load, the filter call and save return
(`PipelineContract`): if load fails the result is exit 1 with only the load
call and one diagnostic with the input path, so the filter, save and release
are never called; if the filter call fails the loaded handle is released once,
one diagnostic follows, exit 1, and save is never called; if save fails both
handles have been released once, one diagnostic with the output path follows,
exit 1; if all three succeed the exit code is 0; the exit code is 0 exactly
when load, the filter call and save all succeed; in each case the final library
state and the whole trace are determined.  When the function pointer is a call
into the library the events added are moreover one of the four explicit runs of
`PipelineRun`, with exactly one diagnostic when the exit code is not 0. -/
theorem pipelines_stop_at_first_failure (L : Lib σ H Fl R) (input output : String)
    (st : State σ H Fl R) :
    (∀ (func : H → Fl → Fl → State σ H Fl R → Option H × State σ H Fl R) (A B : Fl),
      PipelineContract L input output (fun s => func s A B) st
        (filter2 L input output func A B st) ∧
      (IsFilterCall (fun s => func s A B) →
        StopsAtFirstFailure L input output st (filter2 L input output func A B st))) ∧
    (∀ (func : H → Fl → Fl → Fl → State σ H Fl R → Option H × State σ H Fl R) (A B C : Fl),
      PipelineContract L input output (fun s => func s A B C) st
        (filter3 L input output func A B C st) ∧
      (IsFilterCall (fun s => func s A B C) →
        StopsAtFirstFailure L input output st (filter3 L input output func A B C st))) ∧
    (∀ (func : H → Fl → Fl → Fl → Fl → Fl → Fl → State σ H Fl R → Option H × State σ H Fl R)
      (A B C D E F : Fl),
      PipelineContract L input output (fun s => func s A B C D E F) st
        (filter6 L input output func A B C D E F st) ∧
      (IsFilterCall (fun s => func s A B C D E F) →
        StopsAtFirstFailure L input output st
          (filter6 L input output func A B C D E F st))) :=
  ⟨fun func A B =>
     ⟨pipeline_contract L input output (fun s => func s A B) st,
      fun hf => stopsAtFirstFailure_pipeline L input output _ hf st⟩,
   fun func A B C =>
     ⟨pipeline_contract L input output (fun s => func s A B C) st,
      fun hf => stopsAtFirstFailure_pipeline L input output _ hf st⟩,
   fun func A B C D E F =>
     ⟨pipeline_contract L input output (fun s => func s A B C D E F) st,
      fun hf => stopsAtFirstFailure_pipeline L input output _ hf st⟩⟩

/-- Witness of C6 on the counting stub: `filter6` with `compdefault` when the
filter call fails, `filter2` with `sf_lowpass` when save fails, `filter3` with
`sf_peaking` when load fails, and `filter2` with `sf_notch` when all succeed. -/
theorem pipelines_stop_at_first_failure_witness :
    filter6 (stubLib true false true) "in.wav" "out.wav"
        (compdefault (stubLib true false true)) 6 (-24) 6 4 0.02 0.2 ⟨0, []⟩
      = (1, ⟨1, [.wavload "in.wav" (some 1),
          .filter (.sf_compressor 1
            { pregain := 6, threshold := -24, knee := 6, ratio := 4, attack := 0.02,
              release := 0.2, rest := 7 }) none,
          .snd_free 1, .stderr "Error: Failed to apply filter\n"]⟩) ∧
    filter2 (stubLib true true false) "in.wav" "out.wav"
        (sf_lowpass (stubLib true true false)) 1000 0.5 ⟨0, []⟩
      = (1, ⟨2, [.wavload "in.wav" (some 1), .filter (.sf_lowpass 1 1000 0.5) (some 2),
          .snd_free 1, .wavsave 2 "out.wav" false, .snd_free 2,
          .stderr ("Error: Failed to save WAV: " ++ "out.wav" ++ "\n")]⟩) ∧
    filter3 (stubLib false true true) "in.wav" "out.wav"
        (sf_peaking (stubLib false true true)) 1000 1 6 ⟨0, []⟩
      = (1, ⟨0, [.wavload "in.wav" none,
          .stderr ("Error: Failed to load WAV: " ++ "in.wav" ++ "\n")]⟩) ∧
    filter2 (stubLib true true true) "in.wav" "out.wav"
        (sf_notch (stubLib true true true)) 1000 1 ⟨0, []⟩
      = (0, ⟨2, [.wavload "in.wav" (some 1), .filter (.sf_notch 1 1000 1) (some 2),
          .snd_free 1, .wavsave 2 "out.wav" true, .snd_free 2]⟩) :=
  ⟨((pipelines_stop_at_first_failure (stubLib true false true) "in.wav" "out.wav"
      ⟨0, []⟩).2.2 (compdefault (stubLib true false true)) 6 (-24) 6 4 0.02 0.2).1.2.1
      1 1 _ rfl rfl,
   ((pipelines_stop_at_first_failure (stubLib true true false) "in.wav" "out.wav"
      ⟨0, []⟩).1 (sf_lowpass (stubLib true true false)) 1000 0.5).1.2.2.1
      1 1 2 _ 2 rfl rfl rfl,
   ((pipelines_stop_at_first_failure (stubLib false true true) "in.wav" "out.wav"
      ⟨0, []⟩).2.1 (sf_peaking (stubLib false true true)) 1000 1 6).1.1 0 rfl,
   ((pipelines_stop_at_first_failure (stubLib true true true) "in.wav" "out.wav"
      ⟨0, []⟩).1 (sf_notch (stubLib true true true)) 1000 1).1.2.2.2.1
      1 1 2 _ 2 rfl rfl rfl⟩

/-- C7: for each of the nine filter names, of arity `N`, and an invocation with
at least `N` parameter tokens, when load returns `h1`, the call registered under
the name, on `h1` and the `atof` values of the first `N` parameter tokens in
order, returns `h2`, and save succeeds, the run of `main` is exactly:
`sf_wavload(argv[1])`, that one filter call, `sf_snd_free(h1)`,
`sf_wavsave(h2, argv[2])`, `sf_snd_free(h2)`, exit code 0. -/
theorem main_success_run (L : Lib σ H Fl R) (prog input output name : String)
    (params : List String) (st : State σ H Fl R) (N : Nat)
    (harity : specArity name = some N) (hN : N ≤ params.length) (h1 : H) :
    ∃ call : FilterCall H Fl R,
      specRegistry L.compressor_defaults name h1 ((params.take N).map L.atof) = some call ∧
      call.snd = h1 ∧
      ∀ (h2 : H) (w1 w2 w3 : σ),
        L.wavload input st.lib = (some h1, w1) →
        L.filter call w1 = (some h2, w2) →
        L.wavsave h2 output (L.snd_free h1 w2) = (true, w3) →
        main L (params.length + 4) (prog :: input :: output :: name :: params) st
          = .ok (0, { lib := L.snd_free h2 w3,
                      trace := st.trace ++
                        [.wavload input (some h1), .filter call (some h2), .snd_free h1,
                          .wavsave h2 output true, .snd_free h2] }) := by
  obtain ⟨mk, hreg, hsnd, hmain⟩ := main_enough L prog input output name params st N harity hN
  refine ⟨mk h1, hreg h1, hsnd h1, fun h2 w1 w2 w3 hl hf hs => ?_⟩
  rw [hmain]
  simp [pipeline, sf_wavload, sf_call, sf_snd_free, sf_wavsave, hl, hf, hs]

/-- Witness of C7: `prog in.wav out.wav lowpass 1000 0.5` on the counting stub
calls load on `in.wav`, `sf_lowpass` once with (1000, 0.5), releases handle 1,
saves handle 2 to `out.wav`, releases handle 2 and exits 0. -/
theorem main_success_run_witness :
    specArity "lowpass" = some 2 ∧
    main (stubLib true true true) 6 ["prog", "in.wav", "out.wav", "lowpass", "1000", "0.5"]
        ⟨0, []⟩
      = .ok (0, ⟨2, [.wavload "in.wav" (some 1), .filter (.sf_lowpass 1 1000 0.5) (some 2),
          .snd_free 1, .wavsave 2 "out.wav" true, .snd_free 2]⟩) := by
  refine ⟨by decide, ?_⟩
  obtain ⟨call, hreg, -, hrun⟩ :=
    main_success_run (stubLib true true true) "prog" "in.wav" "out.wav" "lowpass"
      ["1000", "0.5"] ⟨0, []⟩ 2 (by decide) (by decide) 1
  have hcall : call = .sf_lowpass 1 1000 0.5 := by
    simp [specRegistry, stubLib, stubAtof] at hreg
    exact hreg.symm
  subst hcall
  exact hrun 2 1 2 2 rfl rfl rfl

/-- C8: `compdefault` calls `sf_compressor` with the record that is
`sf_compressor_defaults` with `pregain`, `threshold`, `knee`, `ratio`, `attack`
and `release` replaced by its six arguments in that order, the rest of the
defaults unchanged; and `main` dispatches `compressor` through `filter6` with
`compdefault` and the `atof` values of the first six parameter tokens in order. -/
theorem compdefault_overrides_six_fields (L : Lib σ H Fl R) (snd : H) (a b c d e f : Fl)
    (st : State σ H Fl R) (prog input output t1 t2 t3 t4 t5 t6 : String)
    (extra : List String) :
    compdefault L snd a b c d e f st
        = sf_compressor L snd
            { L.compressor_defaults with
              pregain := a, threshold := b, knee := c, ratio := d, attack := e, release := f }
            st ∧
      ({ L.compressor_defaults with
          pregain := a, threshold := b, knee := c, ratio := d, attack := e, release := f }
        : sf_compressor_params_st Fl R)
        = { pregain := a, threshold := b, knee := c, ratio := d, attack := e, release := f,
            rest := L.compressor_defaults.rest } ∧
      main L (extra.length + 10)
          (prog :: input :: output :: "compressor" :: t1 :: t2 :: t3 :: t4 :: t5 :: t6 :: extra)
          st
        = .ok (filter6 L input output (compdefault L) (L.atof t1) (L.atof t2) (L.atof t3)
            (L.atof t4) (L.atof t5) (L.atof t6) st) := by
  refine ⟨rfl, rfl, ?_⟩
  show main L ((t1 :: t2 :: t3 :: t4 :: t5 :: t6 :: extra).length + 4) _ st = _
  have hc : ¬ ((t1 :: t2 :: t3 :: t4 :: t5 :: t6 :: extra).length + 4 < 4) := by omega
  have h9 : 9 < (t1 :: t2 :: t3 :: t4 :: t5 :: t6 :: extra).length + 4 := by simp
  generalize (t1 :: t2 :: t3 :: t4 :: t5 :: t6 :: extra).length + 4 = argc at hc h9 ⊢
  simp [main, argvAt, getargs6_cons _ _ _ _ _ _ _ _ _ _ _ _ _ _ h9, Frame.load, Frame.store, hc]

/-- Witness of C8: `compressor 6 -24 6 4 0.02 0.2` on the counting stub, whose
defaults are (0, -24, 30, 12, 0.003, 0.25) with the further field 7: the one
filter call of the run is `sf_compressor` with pregain 6, threshold -24, knee 6,
ratio 4, attack 0.02, release 0.2, and the further field still 7. -/
theorem compdefault_overrides_six_fields_witness :
    main (stubLib true true true) 10
        ["prog", "in.wav", "out.wav", "compressor", "6", "-24", "6", "4", "0.02", "0.2"]
        ⟨0, []⟩
      = .ok (0, ⟨2, [.wavload "in.wav" (some 1),
          .filter (.sf_compressor 1
            { pregain := 6, threshold := -24, knee := 6, ratio := 4, attack := 0.02,
              release := 0.2, rest := 7 }) (some 2),
          .snd_free 1, .wavsave 2 "out.wav" true, .snd_free 2]⟩) := by
  have h := (compdefault_overrides_six_fields (stubLib true true true) 1 0 0 0 0 0 0 ⟨0, []⟩
    "prog" "in.wav" "out.wav" "6" "-24" "6" "4" "0.02" "0.2" []).2.2
  have e : ([] : List String).length + 10 = 10 := rfl
  rw [e] at h
  rw [h]
  simp [filter6, compdefault, sf_compressor, sf_call, sf_wavload, sf_wavsave, sf_snd_free,
    stubLib, stubAtof]

/-- C9, as stated, fails on the code: `prog a b peaking 1000 1` (a known filter
with too few parameter tokens) exits 1 after writing only the diagnostic; it is
not the case that the run exits 1 with the usage text printed. -/
theorem badargs_prints_no_usage :
    main (stubLib true true true) 6 ["prog", "a", "b", "peaking", "1000", "1"] ⟨0, []⟩
        = .ok (1, ⟨0, [.stderr "Error: Bad arguments for peaking\n"]⟩) ∧
      ¬ ∃ st1, main (stubLib true true true) 6 ["prog", "a", "b", "peaking", "1000", "1"] ⟨0, []⟩
          = .ok (1, st1) ∧ helpText ∈ printed st1.trace := by
  have h := main_few (stubLib true true true) ["prog", "a", "b", "peaking", "1000", "1"]
    ⟨0, []⟩ "peaking" 3 (by decide) (by decide) (by decide)
  rw [badargs_eq] at h
  refine ⟨h, ?_⟩
  rintro ⟨st1, h1, hmem⟩
  rw [show (6 : Nat) = ["prog", "a", "b", "peaking", "1000", "1"].length from rfl, h] at h1
  injection h1 with h1
  injection h1 with _ h1
  subst h1
  simp [printed] at hmem

/-- C9, amended: an unknown filter name makes `main` print the usage text to
standard output, then write one diagnostic containing the name, and exit 1; a
known filter with too few parameter tokens makes `main` write one diagnostic
containing the name, without the usage text, and exit 1. -/
theorem validation_failures_exit_1 (L : Lib σ H Fl R) (prog input output name : String)
    (params : List String) (st : State σ H Fl R) :
    (name ∉ ["lowpass", "highpass", "bandpass", "notch", "peaking", "allpass", "lowshelf",
        "highshelf", "compressor"] →
      main L (params.length + 4) (prog :: input :: output :: name :: params) st
        = .ok (1, { lib := st.lib,
                    trace := st.trace ++ [.stdout aboutText, .stdout helpText,
                      .stderr ("Error: Bad filter \"" ++ name ++ "\"\n")] })) ∧
    (∀ N, specArity name = some N → params.length < N →
      main L (params.length + 4) (prog :: input :: output :: name :: params) st
        = .ok (1, { lib := st.lib,
                    trace := st.trace ++
                      [.stderr ("Error: Bad arguments for " ++ name ++ "\n")] })) := by
  refine ⟨main_unknown L prog input output name params st, fun N harity hlt => ?_⟩
  have h := main_few L (prog :: input :: output :: name :: params) st name N harity (by simp)
    (by simp only [List.length_cons]; omega)
  rw [badargs_eq] at h
  exact h

/-- Witness of the amended C9: `prog a b reverb` (unknown filter) and
`prog a b notch 440` (one of two parameters). -/
theorem validation_failures_exit_1_witness :
    main (stubLib true true true) 4 ["prog", "a", "b", "reverb"] ⟨0, []⟩
        = .ok (1, ⟨0, [.stdout aboutText, .stdout helpText,
            .stderr ("Error: Bad filter \"" ++ "reverb" ++ "\"\n")]⟩) ∧
      main (stubLib true true true) 5 ["prog", "a", "b", "notch", "440"] ⟨0, []⟩
        = .ok (1, ⟨0, [.stderr ("Error: Bad arguments for " ++ "notch" ++ "\n")]⟩) :=
  ⟨(validation_failures_exit_1 (stubLib true true true) "prog" "a" "b" "reverb" []
      ⟨0, []⟩).1 (by decide),
   (validation_failures_exit_1 (stubLib true true true) "prog" "a" "b" "notch" ["440"]
      ⟨0, []⟩).2 2 (by decide) (by decide)⟩

/-- C10: when `argv` has exactly `argc` tokens (for every `argc`, so for every
`argc` of at least 1), `main` and `getargs` (with any combination of null and
non-null pointers) never read `argv` out of range: both return a result, not a
fault, from every state and for every filter name. -/
theorem argv_reads_in_range (L : Lib σ H Fl R) (argc : Nat) (argv : List String)
    (st : State σ H Fl R) (hlen : argv.length = argc) :
    (∃ r, main L argc argv st = .ok r) ∧
    (∀ (v1 v2 v3 v4 v5 v6 : Option Var) (fr : Frame Fl),
      ∃ r, getargs L.atof argc argv v1 v2 v3 v4 v5 v6 fr = .ok r) := by
  refine ⟨?_, fun v1 v2 v3 v4 v5 v6 fr => getargs_total L.atof argc argv fr v1 v2 v3 v4 v5 v6 hlen⟩
  subst hlen
  by_cases h4 : argv.length < 4
  · exact ⟨_, main_usage L _ argv st h4⟩
  · obtain ⟨prog, input, output, name, params, rfl⟩ :
        ∃ a b c d t, argv = a :: b :: c :: d :: t := by
      match argv, h4 with
      | a :: b :: c :: d :: t, _ => exact ⟨a, b, c, d, t, rfl⟩
      | [], h | [_], h | [_, _], h | [_, _, _], h => exact absurd (by simp) h
    cases harity : specArity name with
    | none =>
      refine ⟨_, main_unknown L prog input output name params st ?_⟩
      unfold specArity at harity
      split_ifs at harity
      simp_all
    | some N =>
      by_cases hN : N ≤ params.length
      · obtain ⟨mk, -, -, hm⟩ := main_enough L prog input output name params st N harity hN
        exact ⟨_, hm⟩
      · exact ⟨_, main_few L (prog :: input :: output :: name :: params) st name N harity
          (by simp) (by simp only [List.length_cons]; omega)⟩

/-- Witness of C10: `prog in.wav out.wav compressor 6 -24 6` (7 tokens). -/
theorem argv_reads_in_range_witness :
    ["prog", "in.wav", "out.wav", "compressor", "6", "-24", "6"].length = 7 ∧
    ∃ r, main (stubLib true true true) 7
      ["prog", "in.wav", "out.wav", "compressor", "6", "-24", "6"] ⟨0, []⟩ = .ok r :=
  ⟨rfl,
   (argv_reads_in_range (stubLib true true true) 7
      ["prog", "in.wav", "out.wav", "compressor", "6", "-24", "6"] ⟨0, []⟩ rfl).1⟩

end Claims

end Sndfilter
